import Mathlib

/-!
Verification of the acquisition, conversion, edge-detection, cycle-segmentation
and windowing pipeline of serial_plotter_pyqt_dual_axis_v9.py.

Raw channel readings and timestamps are Python floats in the source; they are
modelled as rational numbers.  All list and counter state is modelled directly.
Source line references are to src/serial_plotter_pyqt_dual_axis_v9.py.
-/

namespace Monitoring

/-- Channel roles, the entries of MainWindow.channel_types. -/
inductive CT
| T
| P
| I
deriving DecidableEq, Repr

/-- ADC resolution, MainWindow.__init__ line 107: 2 to the power 15. -/
def adc_resolution : ℕ := 2 ^ (16 - 1)

/-- Pressure calibration constant s0, line 114. -/
def s0 : ℚ := 2500 / 1000

/-- Pressure calibration constant s1, line 115. -/
def s1 : ℚ := 2508 / 1000

/-- Maximal flow Qmax, line 116. -/
def Qmax : ℚ := 20000

/-- Derived pressure scale xmax0, line 117. -/
def xmax0 : ℚ := Qmax / s0

/-- Derived pressure scale xmax1, line 118. -/
def xmax1 : ℚ := Qmax / s1

/-- Low threshold percentage, line 126. -/
def i_threshold_low_pct : ℚ := 20 / 100

/-- High threshold percentage, line 127. -/
def i_threshold_high_pct : ℚ := 80 / 100

/-- Low threshold, line 128: int(0.20 * adc_resolution); the float product is
positive so Python int() is the floor. -/
def i_threshold_low : ℚ := ((⌊i_threshold_low_pct * (adc_resolution : ℚ)⌋ : ℤ) : ℚ)

/-- High threshold, line 129: int(0.80 * adc_resolution). -/
def i_threshold_high : ℚ := ((⌊i_threshold_high_pct * (adc_resolution : ℚ)⌋ : ℤ) : ℚ)

/-- Number of earlier channels of role P, the pressure_idx computed at
line 274: sum over j below i of [channel_types j = P]. -/
def pressure_idx (types : List CT) (i : ℕ) : ℕ :=
((types.take i).filter (fun t => decide (t = CT.P))).length

/-- Conversion of the reading of channel i, the body of the loop of
MainWindow.convert_voltage_to_units, lines 265-293.  Out-of-range channels
(line 292-293) pass the voltage through unchanged. -/
def convertOne (types : List CT) (i : ℕ) (voltage : ℚ) : ℚ :=
match types.get? i with
| some CT.T => voltage * (10 / (2 ^ (16 - 1) : ℚ)) * 100
| some CT.P =>
    if pressure_idx types i % 2 = 0 then voltage * (xmax0 / (2 ^ (16 - 1) : ℚ))
    else voltage * (xmax1 / (2 ^ (16 - 1) : ℚ))
| some CT.I =>
    if voltage < i_threshold_low then 0
    else if voltage > i_threshold_high then 1
    else if voltage < (i_threshold_low + i_threshold_high) / 2 then 0 else 1
| none => voltage

/-- Helper for convert_voltage_to_units: converts the readings from
position i onwards. -/
def convertFrom (types : List CT) (i : ℕ) : List ℚ → List ℚ
| [] => []
| v :: vs => convertOne types i v :: convertFrom types (i + 1) vs

/-- MainWindow.convert_voltage_to_units, lines 258-295. -/
def convert_voltage_to_units (types : List CT) (vs : List ℚ) : List ℚ :=
convertFrom types 0 vs

/-- Digital state of the inductive channel: LOW or HIGH. -/
inductive IState
| LOW
| HIGH
deriving DecidableEq, Repr

/-- Direction of a recorded transition, the UP and DOWN tags of
MainWindow.i_channel_transitions. -/
inductive Direction
| UP
| DOWN
deriving DecidableEq, Repr

/-- Edge-detector state: MainWindow.i_channel_state (None before the first
sample) and MainWindow.i_channel_transitions. -/
structure EdgeSt where
  state : Option IState
  transitions : List (ℚ × Direction)
deriving DecidableEq, Repr

/-- MainWindow.process_i_channel_transition, lines 297-334, for the case in
which an I channel is configured.  Returns the updated state and the digital
value 0 or 1. -/
def process_i_channel_transition (st : EdgeSt) (x_time raw_value : ℚ) :
    EdgeSt × ℤ :=
  let nd : IState × ℤ :=
    if raw_value < i_threshold_low then (IState.LOW, 0)
    else if raw_value > i_threshold_high then (IState.HIGH, 1)
    else
      match st.state with
      | some s => (s, if s = IState.HIGH then 1 else 0)
      | none => (IState.LOW, 0)
  let new_state := nd.1
  let transitions :=
    match st.state with
    | some prev =>
        if prev = IState.LOW ∧ new_state = IState.HIGH then
          st.transitions ++ [(x_time, Direction.UP)]
        else if prev = IState.HIGH ∧ new_state = IState.LOW then
          st.transitions ++ [(x_time, Direction.DOWN)]
        else st.transitions
    | none => st.transitions
  (⟨some new_state, transitions⟩, nd.2)

/-- Final edge-detector state after feeding a list of (time, raw) samples. -/
def processISeq (st : EdgeSt) : List (ℚ × ℚ) → EdgeSt
| [] => st
| p :: ps => processISeq (process_i_channel_transition st p.1 p.2).1 ps

/-- Sequence of classified states produced while feeding a list of
(time, raw) samples. -/
def stateTrace (st : EdgeSt) : List (ℚ × ℚ) → List IState
| [] => []
| p :: ps =>
    let st1 := (process_i_channel_transition st p.1 p.2).1
    st1.state.getD IState.LOW :: stateTrace st1 ps

/-- Modelled from the spec: the conversion rule the spec states for the
Inductive channel, in which a raw value inside the hysteresis band retains
the previous digital value of that channel, defaulting to 0 when no previous
value exists.  This definition follows the words of the spec and is compared
with the conversion the source actually performs. -/
def inductiveHoldSeqAux (prev : ℤ) : List ℚ → List ℤ
| [] => []
| r :: rs =>
    let v : ℤ :=
      if r < i_threshold_low then 0
      else if r > i_threshold_high then 1
      else prev
    v :: inductiveHoldSeqAux v rs

/-- Modelled from the spec: hysteresis-hold conversion of a raw sequence of
the Inductive channel, starting with no previous value (default 0). -/
def inductiveHoldSeq (raws : List ℚ) : List ℤ :=
inductiveHoldSeqAux 0 raws

/-- Conversion applied samplewise to a sequence of raw-value vectors, as the
processing loop does one dequeued sample at a time. -/
def convertRawSeq (types : List CT) (samples : List (List ℚ)) : List (List ℚ) :=
samples.map (convert_voltage_to_units types)

/-- Failure threshold of the acquisition loop, DaqThread.run line 1350. -/
def max_consecutive_failures : ℕ := 100

/-- One attempt of the data-collection loop body of DaqThread.run, as seen
from the loop: a successful read (whose enqueue may hit a full queue, the
timeout of line 1367), a read that returned None (line 1369), or a read that
raised (line 1437-1439). -/
inductive ReadResult
| ok (vs : List ℚ) (putFull : Bool)
| failed
| exc
deriving DecidableEq, Repr

/-- Outward-visible effects of the acquisition loop: a sample put on the
queue (line 1367) or the readErrorSig emission (line 1378). -/
inductive DEvent
| enqueued (vs : List ℚ)
| readError
deriving DecidableEq, Repr

/-- State of the data-collection loop of DaqThread.run, lines 1349-1381. -/
structure DaqSt where
  consecutive_failures : ℕ
  stopThread : Bool
deriving DecidableEq, Repr

/-- One iteration of the inner while loop of DaqThread.run,
lines 1352-1381.  On success the counter is reset (line 1357) before the
enqueue; a full queue raises into the except branch and counts as one
failure.  A None read increments the counter and, at the threshold, raises
(line 1372), which the except branch counts once more before emitting the
read error; a read exception increments once and emits at the threshold
(lines 1375-1380). -/
def daqStep (st : DaqSt) (r : ReadResult) : DaqSt × List DEvent :=
  if st.stopThread then (st, [])
  else
    match r with
    | ReadResult.ok vs putFull =>
        let st1 : DaqSt := { st with consecutive_failures := 0 }
        if putFull then
          let cf1 := st1.consecutive_failures + 1
          if cf1 ≥ max_consecutive_failures then
            ({ st1 with consecutive_failures := cf1, stopThread := true },
             [DEvent.readError])
          else ({ st1 with consecutive_failures := cf1 }, [])
        else (st1, [DEvent.enqueued vs])
    | ReadResult.failed =>
        let cf1 := st.consecutive_failures + 1
        if cf1 ≥ max_consecutive_failures then
          ({ st with consecutive_failures := cf1 + 1, stopThread := true },
           [DEvent.readError])
        else ({ st with consecutive_failures := cf1 }, [])
    | ReadResult.exc =>
        let cf1 := st.consecutive_failures + 1
        if cf1 ≥ max_consecutive_failures then
          ({ st with consecutive_failures := cf1, stopThread := true },
           [DEvent.readError])
        else ({ st with consecutive_failures := cf1 }, [])

/-- The data-collection loop of DaqThread.run run over a list of read
attempts; once stopThread is set the loop body is never entered again. -/
def daqRun (st : DaqSt) : List ReadResult → DaqSt × List DEvent
| [] => (st, [])
| r :: rs =>
    if st.stopThread then (st, [])
    else
      let p1 := daqStep st r
      let p2 := daqRun p1.1 rs
      (p2.1, p1.2 ++ p2.2)

/-- Starting from a consecutive-failure count cf, the coming read attempts
never bring the count up to the failure threshold. -/
def safeFrom (cf : ℕ) : List ReadResult → Bool
| [] => true
| ReadResult.ok _ false :: rs => safeFrom 0 rs
| ReadResult.ok _ true :: rs =>
    decide (0 + 1 < max_consecutive_failures) && safeFrom (0 + 1) rs
| ReadResult.failed :: rs =>
    decide (cf + 1 < max_consecutive_failures) && safeFrom (cf + 1) rs
| ReadResult.exc :: rs =>
    decide (cf + 1 < max_consecutive_failures) && safeFrom (cf + 1) rs

/-- Row built by DaqThread.Read_and_Process_DaqData, lines 1426-1433: one
entry per configured channel, missing raw values padded with 0.0 and extra
raw values ignored. -/
def readRow (n : ℕ) (vs : List ℚ) : List ℚ :=
(List.range n).map (fun i => vs.getD i 0)

/-- DaqThread.Read_and_Process_DaqData, lines 1418-1439, for a collect that
did not raise: a None result propagates as None, otherwise the padded row is
returned. -/
def Read_and_Process_DaqData (channels : List ℕ) (values : Option (List ℚ)) :
    Option (List ℚ) :=
  match values with
  | some vs => some (readRow channels.length vs)
  | none => none

/-- One dequeued sample of the processing loop: the raw values and the
timestamp appended at line 1364 and split off again at lines 1892-1897. -/
structure Sample where
  raws : List ℚ
  t : ℚ
deriving DecidableEq, Repr

/-- Static configuration of the processing loop, GraphThread.__init__. -/
structure GCfg where
  channel_types : List CT
  n_sensors : ℕ
  n_disp : ℕ
  read_period : ℚ
  cycle_mode : Bool
deriving DecidableEq, Repr

/-- Mutable state of GraphThread, the fields set in __init__
lines 1817-1859 together with the edge-detector state of the main window
that run touches through process_i_channel_transition. -/
structure GState where
  stopThread : Bool
  xdata : List ℚ
  ydata : List (List ℚ)
  ydata_raw : List (List ℚ)
  cycle_numbers : List ℕ
  xdata_plts : List ℚ
  ydata_plts : List (List ℚ)
  current_cycle : ℕ
  cycle_active : Bool
  cycle_start_time : ℚ
  cycle_xdata : List ℚ
  cycle_ydata : List (List ℚ)
  waiting_for_first_cycle : Bool
  last_cycle_end_time : ℚ
  edge : EdgeSt
deriving DecidableEq, Repr

/-- Signals GraphThread emits to the presentation layer. -/
inductive GEvent
| cycleWaiting
| cycleStarted (n : ℕ)
| cycleEnded (n : ℕ) (xs : List ℚ) (ys : List (List ℚ))
| monitTimeEnd
| graphEnd (xs : List ℚ) (ys : List (List ℚ)) (raws : List (List ℚ))
    (cns : List ℕ)
deriving DecidableEq, Repr

/-- True exactly for the final-export signal graphEndSig. -/
def isGraphEnd : GEvent → Bool
| GEvent.graphEnd _ _ _ _ => true
| _ => false

/-- Initial GraphThread state, __init__ lines 1817-1859, together with a
fresh edge detector (MainWindow state at monitoring start). -/
def initGState (cfg : GCfg) : GState :=
  { stopThread := false
    xdata := []
    ydata := []
    ydata_raw := []
    cycle_numbers := []
    xdata_plts := []
    ydata_plts := List.replicate cfg.n_sensors []
    current_cycle := 0
    cycle_active := false
    cycle_start_time := 0
    cycle_xdata := []
    cycle_ydata := []
    waiting_for_first_cycle := cfg.cycle_mode
    last_cycle_end_time := 0
    edge := { state := none, transitions := [] } }

/-- Index of the I channel, MainWindow._update_i_channel_index
lines 189-195: the first position whose type is I, if any. -/
def i_channel_index (cfg : GCfg) : Option ℕ :=
cfg.channel_types.findIdx? (fun t => decide (t = CT.I))

/-- Trigger classification of GraphThread.run lines 1906-1912: above the
high threshold is HIGH, below the low threshold is LOW, and inside the
hysteresis band the current cycle_active flag is kept. -/
def i_is_high_of (cycle_active : Bool) (raw : ℚ) : Bool :=
  if raw > i_threshold_high then true
  else if raw < i_threshold_low then false
  else cycle_active

/-- Display-window push of GraphThread.update_graph_data_only,
lines 2044-2048 (and identically 2070-2074): append while the length is at
most n_disp_data_pts, otherwise drop the head and append. -/
def push_window (n : ℕ) (l : List ℚ) (v : ℚ) : List ℚ :=
  if l.length ≤ n then l ++ [v] else l.tail ++ [v]

/-- The per-channel loop of update_graph_data_only, lines 2052-2074: each
list is pushed with the matching new value; lists beyond the length of the
new sample are left unchanged. -/
def update_y_lists (n : ℕ) : List (List ℚ) → List ℚ → List (List ℚ)
| [], _ => []
| l :: ls, [] => l :: ls
| l :: ls, v :: vs => push_window n l v :: update_y_lists n ls vs

/-- Window part of GraphThread.update_graph_data_only, lines 2039-2074
(the axis-range bookkeeping of lines 2050-2119 emits hints only and does not
touch the window). -/
def update_graph_data_only (n : ℕ) (w : List ℚ × List (List ℚ))
    (new_x : ℚ) (new_y : List ℚ) : List ℚ × List (List ℚ) :=
  (push_window n w.1 new_x, update_y_lists n w.2 new_y)

/-- The per-channel loop of update_graph_data_cycle_mode,
lines 2131-2150: unbounded append. -/
def append_y_lists : List (List ℚ) → List ℚ → List (List ℚ)
| [], _ => []
| l :: ls, [] => l :: ls
| l :: ls, v :: vs => (l ++ [v]) :: append_y_lists ls vs

/-- Processing of one dequeued sample in GraphThread.run,
lines 1891-2001: trigger classification and edge detection
(lines 1899-1916), unit conversion (lines 1918-1922), then the cycle-mode
state machine (lines 1924-1992) or plain recording (lines 1993-2000). -/
def processSample (cfg : GCfg) (st : GState) (s : Sample) :
    GState × List GEvent :=
  let ih : Bool × EdgeSt :=
    match i_channel_index cfg with
    | some i_idx =>
        if i_idx < s.raws.length then
          let raw_i := s.raws.getD i_idx 0
          (i_is_high_of st.cycle_active raw_i,
           (process_i_channel_transition st.edge s.t raw_i).1)
        else (false, st.edge)
    | none => (false, st.edge)
  let i_is_high := ih.1
  let ypoints_converted := convert_voltage_to_units cfg.channel_types s.raws
  let st := { st with edge := ih.2 }
  if cfg.cycle_mode then
    if st.waiting_for_first_cycle then
      if i_is_high then
        ({ st with waiting_for_first_cycle := false
                   cycle_active := true
                   current_cycle := 1
                   cycle_start_time := s.t
                   cycle_xdata := []
                   cycle_ydata := [] },
         [GEvent.cycleStarted 1])
      else (st, [])
    else if st.cycle_active then
      if i_is_high then
        let x_relative := s.t - st.cycle_start_time
        ({ st with xdata := st.xdata ++ [x_relative]
                   ydata := st.ydata ++ [ypoints_converted]
                   ydata_raw := st.ydata_raw ++ [s.raws]
                   cycle_numbers := st.cycle_numbers ++ [st.current_cycle]
                   cycle_xdata := st.cycle_xdata ++ [x_relative]
                   cycle_ydata := st.cycle_ydata ++ [ypoints_converted]
                   xdata_plts := st.xdata_plts ++ [x_relative]
                   ydata_plts := append_y_lists st.ydata_plts
                     ypoints_converted },
         [])
      else
        ({ st with cycle_active := false
                   last_cycle_end_time := s.t },
         [GEvent.cycleEnded st.current_cycle st.cycle_xdata
            (if st.cycle_ydata = [] then [] else st.cycle_ydata.transpose)])
    else
      if i_is_high = true ∧ s.t - st.last_cycle_end_time > 2 then
        ({ st with cycle_active := true
                   current_cycle := st.current_cycle + 1
                   cycle_start_time := s.t
                   cycle_xdata := []
                   cycle_ydata := []
                   xdata_plts := []
                   ydata_plts := st.ydata_plts.map (fun _ => []) },
         [GEvent.cycleStarted (st.current_cycle + 1)])
      else (st, [])
  else
    let w := update_graph_data_only cfg.n_disp (st.xdata_plts, st.ydata_plts)
      s.t ypoints_converted
    ({ st with xdata := st.xdata ++ [s.t]
               ydata := st.ydata ++ [ypoints_converted]
               ydata_raw := st.ydata_raw ++ [s.raws]
               xdata_plts := w.1
               ydata_plts := w.2 },
     [])

/-- The inner drain loop of GraphThread.run, lines 1889-2004: the dequeued
samples of one wake are processed in order, stopping early if stopThread is
already set. -/
def processBatch (cfg : GCfg) : GState → List Sample → GState × List GEvent
| st, [] => (st, [])
| st, s :: ss =>
    if st.stopThread then (st, [])
    else
      let p1 := processSample cfg st s
      let p2 := processBatch cfg p1.1 ss
      (p2.1, p1.2 ++ p2.2)

/-- Monitoring-duration check of GraphThread.run, lines 2031-2034: skipped
while waiting for the first cycle; otherwise, when there is recorded data
and its last time value exceeds read_period, monitTimeEndSig is emitted and
stopThread is set. -/
def monit_check (period : ℚ) (st : GState) : GState × List GEvent :=
  if st.waiting_for_first_cycle = false ∧ 0 < st.xdata.length ∧
      st.xdata.getLastD 0 > period then
    ({ st with stopThread := true }, [GEvent.monitTimeEnd])
  else (st, [])

/-- One iteration of the outer while loop of GraphThread.run: drain a batch,
then run the monitoring-duration check. -/
def gstep (cfg : GCfg) (st : GState) (batch : List Sample) :
    GState × List GEvent :=
  let p1 := processBatch cfg st batch
  let p2 := monit_check cfg.read_period p1.1
  (p2.1, p1.2 ++ p2.2)

/-- The outer while loop of GraphThread.run over a list of batches; the loop
condition checks stopThread before each iteration. -/
def gloop (cfg : GCfg) : GState → List (List Sample) → GState × List GEvent
| st, [] => (st, [])
| st, b :: bs =>
    if st.stopThread then (st, [])
    else
      let p1 := gstep cfg st b
      let p2 := gloop cfg p1.1 bs
      (p2.1, p1.2 ++ p2.2)

/-- GraphThread.run, lines 1869-2037, over a terminating execution: the
cycleWaitingSig emission at start when in cycle mode (lines 1874-1875), the
outer loop, and the single final graphEndSig emission of line 2037 on
exit. -/
def grun (cfg : GCfg) (st : GState) (batches : List (List Sample)) :
    GState × List GEvent :=
  let p := gloop cfg st batches
  (p.1,
   (if cfg.cycle_mode then [GEvent.cycleWaiting] else []) ++ p.2 ++
     [GEvent.graphEnd p.1.xdata p.1.ydata p.1.ydata_raw p.1.cycle_numbers])

/-- GraphThread.stop_Thread, lines 1865-1867: sets the stop flag and emits
nothing. -/
def stop_Thread (st : GState) : GState × List GEvent :=
  ({ st with stopThread := true }, [])

theorem i_threshold_low_eq : i_threshold_low = 6553 := by
  norm_num [i_threshold_low, i_threshold_low_pct, adc_resolution]

theorem i_threshold_high_eq : i_threshold_high = 26214 := by
  norm_num [i_threshold_high, i_threshold_high_pct, adc_resolution]

theorem convertFrom_get? (types : List CT) (vs : List ℚ) :
    ∀ i j, (convertFrom types i vs).get? j =
      (vs.get? j).map (fun v => convertOne types (i + j) v) := by
  induction vs with
  | nil => intro i j; simp [convertFrom]
  | cons v vs ih =>
      intro i j
      cases j with
      | zero => simp [convertFrom]
      | succ j =>
          simp only [convertFrom, List.get?]
          rw [ih (i + 1) j]
          have h : i + 1 + j = i + (j + 1) := by omega
          rw [h]

/-- Claim C1, counterexample: on the Inductive channel the conversion
function does not retain the previous digital value across the hysteresis
band.  After a sample above the high threshold (digital 1), a raw value of
10000, inside the band, converts to 0 (it is below the midpoint of the
thresholds, line 290-291), while the claimed hysteresis hold yields 1. -/
theorem C1_counterexample :
    ¬ (convertRawSeq [CT.I] [[30000], [10000]] =
        (inductiveHoldSeq [30000, 10000]).map (fun z => [(z : ℚ)])) := by
  norm_num [convertRawSeq, convert_voltage_to_units, convertFrom, convertOne,
    inductiveHoldSeq, inductiveHoldSeqAux, i_threshold_low_eq,
    i_threshold_high_eq]

/-- Claim C1, amended: for every raw-value vector and Inductive-role
channel, the converted value is 0 below the low threshold, 1 above the high
threshold, and inside the hysteresis band it is 0 below the midpoint of the
two thresholds and 1 otherwise, independent of any previous sample. -/
theorem C1_amended_holds :
    ∀ (types : List CT) (vs : List ℚ) (i : ℕ) (v : ℚ),
      types.get? i = some CT.I → vs.get? i = some v →
      (convert_voltage_to_units types vs).get? i =
        some (if v < i_threshold_low then 0
              else if v > i_threshold_high then 1
              else if v < (i_threshold_low + i_threshold_high) / 2 then 0
              else 1) := by
  intro types vs i v hI hv
  rw [convert_voltage_to_units, convertFrom_get? types vs 0 i, hv]
  simp only [Option.map_some']
  rw [convertOne]
  simp only [Nat.zero_add, hI]

/-- Claim C1, witness for the amended theorem at a concrete input. -/
theorem C1_witness :
    (convert_voltage_to_units [CT.I] [16000]).get? 0 =
      some (if (16000 : ℚ) < i_threshold_low then 0
            else if (16000 : ℚ) > i_threshold_high then 1
            else if (16000 : ℚ) < (i_threshold_low + i_threshold_high) / 2
            then 0 else 1) :=
  C1_amended_holds [CT.I] [16000] 0 16000 rfl rfl

/-- Claim C4: from the initial detector state, the raw sequence of 5, 50,
95, 50 and 5 percent of full scale yields the classified states LOW, LOW,
HIGH, HIGH, LOW, with exactly one RISING transition at the 95 percent sample
and one FALLING transition at the final sample; no transition is emitted on
the very first sample, and a sample inside the hysteresis band never emits a
transition. -/
theorem C4_holds :
    (stateTrace ⟨none, []⟩
        [(1, 8192/5), (2, 16384), (3, 155648/5), (4, 16384), (5, 8192/5)] =
      [IState.LOW, IState.LOW, IState.HIGH, IState.HIGH, IState.LOW]) ∧
    ((processISeq ⟨none, []⟩
        [(1, 8192/5), (2, 16384), (3, 155648/5), (4, 16384),
          (5, 8192/5)]).transitions =
      [(3, Direction.UP), (5, Direction.DOWN)]) ∧
    (∀ (st : EdgeSt) (t r : ℚ), st.state = none →
      (process_i_channel_transition st t r).1.transitions =
        st.transitions) ∧
    (∀ (st : EdgeSt) (t r : ℚ),
      ¬ (r < i_threshold_low) → ¬ (r > i_threshold_high) →
      (process_i_channel_transition st t r).1.transitions =
        st.transitions) := by
  refine ⟨?_, ?_, ?_, ?_⟩
  · norm_num [stateTrace, process_i_channel_transition, i_threshold_low_eq,
      i_threshold_high_eq]
  · norm_num [processISeq, process_i_channel_transition, i_threshold_low_eq,
      i_threshold_high_eq]
    decide
  · intro st t r h
    simp [process_i_channel_transition, h]
  · intro st t r h1 h2
    cases hst : st.state with
    | none => simp [process_i_channel_transition, h1, h2, hst]
    | some s =>
        cases s <;> simp [process_i_channel_transition, h1, h2, hst]

/-- Claim C4, witness for the two hypothesis-bearing conjuncts at concrete
inputs: a first sample emits nothing, and a hysteresis-band sample emits
nothing. -/
theorem C4_witness :
    ((process_i_channel_transition ⟨none, []⟩ 0 0).1.transitions = []) ∧
    ((process_i_channel_transition
        ⟨some IState.HIGH, []⟩ 7 16384).1.transitions = []) :=
  ⟨C4_holds.2.2.1 ⟨none, []⟩ 0 0 rfl,
   C4_holds.2.2.2 ⟨some IState.HIGH, []⟩ 7 16384
     (by simp only [i_threshold_low_eq]; decide)
     (by simp only [i_threshold_high_eq]; decide)⟩

/-- Claim C7: a Pressure-role channel is converted with constant s0 when the
number of earlier Pressure channels is even, with s1 when it is odd, as
value equal to raw times Qmax over the constant, divided by the full-scale
code; and only Pressure-role channels move that count. -/
theorem C7_holds :
    (∀ (types : List CT) (vs : List ℚ) (i : ℕ) (v : ℚ),
      types.get? i = some CT.P → vs.get? i = some v →
      (convert_voltage_to_units types vs).get? i =
        some (if pressure_idx types i % 2 = 0
              then v * (Qmax / s0) / (adc_resolution : ℚ)
              else v * (Qmax / s1) / (adc_resolution : ℚ))) ∧
    (∀ (types : List CT) (i : ℕ) (t : CT), t ≠ CT.P →
      pressure_idx (t :: types) (i + 1) = pressure_idx types i) ∧
    (∀ (types : List CT) (i : ℕ),
      pressure_idx (CT.P :: types) (i + 1) = pressure_idx types i + 1) := by
  refine ⟨?_, ?_, ?_⟩
  · intro types vs i v hP hv
    rw [convert_voltage_to_units, convertFrom_get? types vs 0 i, hv]
    simp only [Option.map_some']
    rw [convertOne]
    simp only [Nat.zero_add, hP]
    split_ifs with hpar
    · rw [xmax0]
      norm_num [adc_resolution]
      ring
    · rw [xmax1]
      norm_num [adc_resolution]
      ring
  · intro types i t h
    simp [pressure_idx, List.take_succ_cons, List.filter, h]
  · intro types i
    simp [pressure_idx, List.take_succ_cons, List.filter]

/-- Claim C7, witness at a concrete input: a single Pressure channel (zero
earlier Pressure channels, even) converts with s0. -/
theorem C7_witness :
    (convert_voltage_to_units [CT.P] [2]).get? 0 =
      some (if pressure_idx [CT.P] 0 % 2 = 0
            then 2 * (Qmax / s0) / (adc_resolution : ℚ)
            else 2 * (Qmax / s1) / (adc_resolution : ℚ)) :=
  C7_holds.1 [CT.P] [2] 0 2 rfl rfl

theorem convertFrom_length (types : List CT) :
    ∀ (vs : List ℚ) (i : ℕ), (convertFrom types i vs).length = vs.length := by
  intro vs
  induction vs with
  | nil => intro i; rfl
  | cons v vs ih => intro i; simp [convertFrom, ih]

/-- Claim C6, counterexample: a sample whose raw-value count differs from
the configured channel count is not rejected.  With two configured channels
and a one-entry read, Read_and_Process_DaqData returns a recovered sample
padded with 0.0, and the conversion of an over-long vector is defined and
passes the extra value through. -/
theorem C6_counterexample :
    (Read_and_Process_DaqData [0, 1] (some [3]) = some [3, 0]) ∧
    (([(3 : ℚ)].length = ([0, 1] : List ℕ).length) = False) ∧
    (convert_voltage_to_units [CT.I] [0, 7] = [0, 7]) := by
  refine ⟨by decide, by decide, ?_⟩
  norm_num [convert_voltage_to_units, convertFrom, convertOne,
    i_threshold_low_eq, i_threshold_high_eq]

/-- Claim C6, amended: a channel-count mismatch is recovered at runtime, not
failed fast: ingestion always yields a row of exactly the configured channel
count, padding missing raw values with 0.0 and ignoring extra ones, and
conversion is total, passing values beyond the configured channel count
through unchanged. -/
theorem C6_amended_holds :
    (∀ (channels : List ℕ) (vs : List ℚ),
      (Read_and_Process_DaqData channels (some vs)).isSome = true) ∧
    (∀ (channels : List ℕ) (vs out : List ℚ),
      Read_and_Process_DaqData channels (some vs) = some out →
      out.length = channels.length) ∧
    (∀ (n : ℕ) (vs : List ℚ) (i : ℕ), i < n →
      (readRow n vs).get? i = some (vs.getD i 0)) ∧
    (∀ (types : List CT) (vs : List ℚ) (i : ℕ) (v : ℚ),
      types.length ≤ i → vs.get? i = some v →
      (convert_voltage_to_units types vs).get? i = some v) ∧
    (∀ (types : List CT) (vs : List ℚ),
      (convert_voltage_to_units types vs).length = vs.length) := by
  refine ⟨?_, ?_, ?_, ?_, ?_⟩
  · intro channels vs
    simp [Read_and_Process_DaqData]
  · intro channels vs out h
    simp only [Read_and_Process_DaqData, Option.some.injEq] at h
    rw [← h]
    simp [readRow]
  · intro n vs i h
    rw [readRow, List.get?_eq_getElem?, List.getElem?_map,
      List.getElem?_range h]
    rfl
  · intro types vs i v hlen hv
    rw [convert_voltage_to_units, convertFrom_get? types vs 0 i, hv]
    simp only [Option.map_some']
    rw [convertOne]
    simp only [Nat.zero_add]
    have hnone : types.get? i = none := by
      rw [List.get?_eq_getElem?]
      exact List.getElem?_eq_none hlen
    rw [hnone]
  · intro types vs
    rw [convert_voltage_to_units, convertFrom_length]

/-- Claim C6, witness for the hypothesis-bearing conjuncts of the amended
theorem at concrete inputs. -/
theorem C6_witness :
    ([(3 : ℚ), 0].length = ([0, 1] : List ℕ).length) ∧
    ((readRow 2 [3]).get? 1 = some ([(3 : ℚ)].getD 1 0)) ∧
    ((convert_voltage_to_units [CT.I] [0, 7]).get? 1 = some 7) :=
  ⟨C6_amended_holds.2.1 [0, 1] [3] [3, 0] (by decide),
   C6_amended_holds.2.2.1 2 [3] 1 (by decide),
   C6_amended_holds.2.2.2.1 [CT.I] [0, 7] 1 7 (by decide) rfl⟩

/-- Claim C8: a successful read resets the consecutive-failure counter to 0;
as long as the counter never reaches the threshold of 100, no read error is
surfaced and the loop keeps running; the read that brings the count to the
threshold emits the read-error notification and terminates the loop; a
stopped loop processes nothing further. -/
theorem C8_holds :
    (∀ (st : DaqSt) (vs : List ℚ), st.stopThread = false →
      (daqStep st (ReadResult.ok vs false)).1.consecutive_failures = 0 ∧
      (daqStep st (ReadResult.ok vs false)).2 = [DEvent.enqueued vs]) ∧
    (∀ (st : DaqSt) (rs : List ReadResult), st.stopThread = false →
      safeFrom st.consecutive_failures rs = true →
      DEvent.readError ∉ (daqRun st rs).2 ∧
        (daqRun st rs).1.stopThread = false) ∧
    (∀ st : DaqSt, st.stopThread = false →
      st.consecutive_failures + 1 ≥ max_consecutive_failures →
      (daqStep st ReadResult.exc).2 = [DEvent.readError] ∧
      (daqStep st ReadResult.exc).1.stopThread = true) ∧
    (∀ (st : DaqSt) (rs : List ReadResult), st.stopThread = true →
      daqRun st rs = (st, [])) := by
  refine ⟨?_, ?_, ?_, ?_⟩
  · intro st vs h
    simp [daqStep, h]
  · intro st rs
    induction rs generalizing st with
    | nil =>
        intro h1 h2
        simp [daqRun, h1]
    | cons r rs ih =>
        intro h1 h2
        cases r with
        | ok vs putFull =>
            cases putFull with
            | false =>
                rw [safeFrom] at h2
                have h3 := ih { st with consecutive_failures := 0 }
                  (by simp [h1]) (by simpa using h2)
                simp only [daqRun, h1, Bool.false_eq_true, if_false,
                  daqStep, if_false]
                simp only [daqStep, h1] at h3 ⊢
                simp [h3.1, h3.2, h3]
            | true =>
                rw [safeFrom, Bool.and_eq_true, decide_eq_true_eq] at h2
                have h3 := ih { st with consecutive_failures := 0 + 1 }
                  (by simp [h1]) (by simpa using h2.2)
                have hlt : ¬ (0 + 1 ≥ max_consecutive_failures) := by
                  omega
                simp only [daqRun, h1, Bool.false_eq_true, if_false]
                simp only [daqStep, h1, Bool.false_eq_true, if_false,
                  if_true, hlt] at h3 ⊢
                simp [h3.1, h3.2, h3, hlt]
        | failed =>
            rw [safeFrom, Bool.and_eq_true, decide_eq_true_eq] at h2
            have h3 := ih { st with consecutive_failures :=
              st.consecutive_failures + 1 } (by simp [h1])
              (by simpa using h2.2)
            have hlt : ¬ (st.consecutive_failures + 1 ≥
                max_consecutive_failures) := by
              omega
            simp only [daqRun, h1, Bool.false_eq_true, if_false]
            simp only [daqStep, h1, Bool.false_eq_true, if_false, hlt] at h3 ⊢
            simp [h3.1, h3.2, h3, hlt]
        | exc =>
            rw [safeFrom, Bool.and_eq_true, decide_eq_true_eq] at h2
            have h3 := ih { st with consecutive_failures :=
              st.consecutive_failures + 1 } (by simp [h1])
              (by simpa using h2.2)
            have hlt : ¬ (st.consecutive_failures + 1 ≥
                max_consecutive_failures) := by
              omega
            simp only [daqRun, h1, Bool.false_eq_true, if_false]
            simp only [daqStep, h1, Bool.false_eq_true, if_false, hlt] at h3 ⊢
            simp [h3.1, h3.2, h3, hlt]
  · intro st h1 h2
    simp [daqStep, h1, h2]
  · intro st rs h
    cases rs <;> simp [daqRun, h]

/-- Claim C8, witness: a successful read after 5 failures resets to 0; a run
of 99 failures followed by a success surfaces nothing; the 100th consecutive
failure emits the read error and stops; a stopped loop ignores input. -/
theorem C8_witness :
    ((daqStep ⟨5, false⟩ (ReadResult.ok [1] false)).1.consecutive_failures
        = 0 ∧
      (daqStep ⟨5, false⟩ (ReadResult.ok [1] false)).2 =
        [DEvent.enqueued [1]]) ∧
    (DEvent.readError ∉
        (daqRun ⟨98, false⟩ [ReadResult.exc, ReadResult.ok [2] false]).2 ∧
      (daqRun ⟨98, false⟩
          [ReadResult.exc, ReadResult.ok [2] false]).1.stopThread = false) ∧
    ((daqStep ⟨99, false⟩ ReadResult.exc).2 = [DEvent.readError] ∧
      (daqStep ⟨99, false⟩ ReadResult.exc).1.stopThread = true) ∧
    (daqRun ⟨3, true⟩ [ReadResult.exc] = (⟨3, true⟩, [])) :=
  ⟨C8_holds.1 ⟨5, false⟩ [1] rfl,
   C8_holds.2.1 ⟨98, false⟩ [ReadResult.exc, ReadResult.ok [2] false] rfl
     (by decide),
   C8_holds.2.2.1 ⟨99, false⟩ rfl (by decide),
   C8_holds.2.2.2 ⟨3, true⟩ [ReadResult.exc] rfl⟩

theorem foldl_push_window_drop (n : ℕ) (xs : List ℚ) :
    List.foldl (push_window n) [] xs = xs.drop (xs.length - (n + 1)) := by
  induction xs using List.reverseRecOn with
  | nil => simp
  | append_singleton xs v ih =>
      rw [List.foldl_append, List.foldl_cons, List.foldl_nil, ih,
        push_window]
      by_cases h : xs.length ≤ n
      · have h0 : xs.length - (n + 1) = 0 := by omega
        have h1 : (xs ++ [v]).length - (n + 1) = 0 := by
          simp only [List.length_append, List.length_cons, List.length_nil]
          omega
        rw [h0, List.drop_zero, h1, List.drop_zero, if_pos h]
      · have hlen : (xs.drop (xs.length - (n + 1))).length = n + 1 := by
          rw [List.length_drop]
          omega
        rw [if_neg (by omega), List.tail_drop]
        have h2 : xs.length - (n + 1) + 1 = xs.length - n := by omega
        have h3 : (xs ++ [v]).length - (n + 1) = xs.length - n := by
          simp only [List.length_append, List.length_cons, List.length_nil]
          omega
        rw [h2, h3, List.drop_append_of_le_length (by omega)]

theorem update_y_lists_get? (n : ℕ) :
    ∀ (ls : List (List ℚ)) (vs : List ℚ) (i : ℕ) (l : List ℚ) (v : ℚ),
      ls.get? i = some l → vs.get? i = some v →
      (update_y_lists n ls vs).get? i = some (push_window n l v) := by
  intro ls
  induction ls with
  | nil =>
      intro vs i l v h1 h2
      simp at h1
  | cons a ls ih =>
      intro vs i l v h1 h2
      cases vs with
      | nil => simp at h2
      | cons w ws =>
          cases i with
          | zero =>
              simp only [List.get?] at h1 h2
              injection h1 with h1
              injection h2 with h2
              subst h1
              subst h2
              rfl
          | succ i =>
              simp only [List.get?] at h1 h2
              exact ih ws i l v h1 h2

/-- Claim C2, counterexample: with a configured display-point count of 1, a
non-cycle run over three samples leaves two entries in the display window,
exceeding the configured capacity (the source appends while the length is
still less than or equal to the capacity, lines 2045-2048). -/
theorem C2_counterexample :
    ((grun ⟨[CT.I], 1, 1, 100, false⟩
        (initGState ⟨[CT.I], 1, 1, 100, false⟩)
        [[⟨[0], 1⟩], [⟨[0], 2⟩], [⟨[0], 3⟩]]).1.xdata_plts = [2, 3]) ∧
    (((grun ⟨[CT.I], 1, 1, 100, false⟩
        (initGState ⟨[CT.I], 1, 1, 100, false⟩)
        [[⟨[0], 1⟩], [⟨[0], 2⟩], [⟨[0], 3⟩]]).1.xdata_plts.length ≤
      (⟨[CT.I], 1, 1, 100, false⟩ : GCfg).n_disp) = False) := by
  have hrun : (grun ⟨[CT.I], 1, 1, 100, false⟩
      (initGState ⟨[CT.I], 1, 1, 100, false⟩)
      [[⟨[0], 1⟩], [⟨[0], 2⟩], [⟨[0], 3⟩]]).1.xdata_plts = [2, 3] := by
    norm_num [grun, gloop, gstep, processBatch, processSample, monit_check,
      initGState, i_channel_index, i_is_high_of, convert_voltage_to_units,
      convertFrom, convertOne, update_graph_data_only, update_y_lists,
      push_window, process_i_channel_transition, i_threshold_low_eq,
      i_threshold_high_eq]
  refine ⟨hrun, ?_⟩
  rw [hrun]
  decide

/-- Claim C2, amended: in non-cycle mode the display window holds at most
one entry more than the configured display-point count (the append guard of
lines 2045 and 2071 uses less-or-equal, so the steady size is the count plus
one); once that size is reached each new sample evicts exactly the oldest
entry, and the window is always the suffix of the most recent samples in
FIFO order. -/
theorem C2_amended_holds :
    (∀ (n : ℕ) (xs : List ℚ),
      (List.foldl (push_window n) [] xs).length = min xs.length (n + 1)) ∧
    (∀ (n : ℕ) (xs : List ℚ),
      List.foldl (push_window n) [] xs = xs.drop (xs.length - (n + 1))) ∧
    (∀ (n : ℕ) (l : List ℚ) (v : ℚ), l.length = n + 1 →
      push_window n l v = l.tail ++ [v]) ∧
    (∀ (n : ℕ) (ls : List (List ℚ)) (vs : List ℚ) (i : ℕ)
        (l : List ℚ) (v : ℚ),
      ls.get? i = some l → vs.get? i = some v →
      (update_y_lists n ls vs).get? i = some (push_window n l v)) ∧
    (∀ (cfg : GCfg) (st : GState) (s : Sample), cfg.cycle_mode = false →
      (processSample cfg st s).1.xdata_plts =
          push_window cfg.n_disp st.xdata_plts s.t ∧
        (processSample cfg st s).1.ydata_plts =
          update_y_lists cfg.n_disp st.ydata_plts
            (convert_voltage_to_units cfg.channel_types s.raws)) := by
  refine ⟨?_, ?_, ?_, ?_, ?_⟩
  · intro n xs
    rw [foldl_push_window_drop, List.length_drop]
    omega
  · intro n xs
    exact foldl_push_window_drop n xs
  · intro n l v h
    rw [push_window, if_neg (by omega)]
  · exact update_y_lists_get?
  · intro cfg st s h
    constructor <;>
      simp [processSample, update_graph_data_only, h]

/-- Claim C2, witness: a window already one past the configured count evicts its head, and
a non-cycle processing step pushes into both window components. -/
theorem C2_witness :
    (push_window 1 [5, 6] 7 = [6, 7]) ∧
    ((update_y_lists 0 [[1]] [2]).get? 0 = some (push_window 0 [1] 2)) ∧
    ((processSample ⟨[CT.I], 1, 1, 100, false⟩
        (initGState ⟨[CT.I], 1, 1, 100, false⟩) ⟨[0], 1⟩).1.xdata_plts =
      push_window 1 (initGState ⟨[CT.I], 1, 1, 100, false⟩).xdata_plts 1) :=
  ⟨C2_amended_holds.2.2.1 1 [5, 6] 7 (by decide),
   C2_amended_holds.2.2.2.1 0 [[1]] [2] 0 [1] 2 rfl rfl,
   (C2_amended_holds.2.2.2.2 ⟨[CT.I], 1, 1, 100, false⟩
     (initGState ⟨[CT.I], 1, 1, 100, false⟩) ⟨[0], 1⟩ rfl).1⟩

/-- Claim C3, counterexample: in cycle mode the loop does self-terminate on
the monitoring duration.  With a duration of 10, a cycle started at t = 1
and a sample at t = 12 is recorded with cycle-relative time 11; the duration
check (skipped only while waiting for the first cycle, line 2032) then
emits monitoring-time-ended and stops the loop. -/
theorem C3_counterexample :
    ((⟨[CT.I], 1, 200, 10, true⟩ : GCfg).cycle_mode = true) ∧
    (GEvent.monitTimeEnd ∈
      (grun ⟨[CT.I], 1, 200, 10, true⟩
        (initGState ⟨[CT.I], 1, 200, 10, true⟩)
        [[⟨[30000], 1⟩], [⟨[30000], 12⟩]]).2) ∧
    ((grun ⟨[CT.I], 1, 200, 10, true⟩
        (initGState ⟨[CT.I], 1, 200, 10, true⟩)
        [[⟨[30000], 1⟩], [⟨[30000], 12⟩]]).1.stopThread = true) := by
  refine ⟨rfl, ?_, ?_⟩ <;>
    norm_num [grun, gloop, gstep, processBatch, processSample, monit_check,
      initGState, i_channel_index, i_is_high_of, convert_voltage_to_units,
      convertFrom, convertOne, update_graph_data_only, update_y_lists,
      append_y_lists, push_window, process_i_channel_transition,
      i_threshold_low_eq, i_threshold_high_eq]

/-- Claim C3, amended: the duration check never fires while the loop is
still waiting for the first cycle, but it is not restricted to non-cycle
mode: whenever the loop is not in the waiting state and the last recorded
time value exceeds the configured duration, it signals monitoring time
ended and stops.  In non-cycle mode every processed sample is recorded with
its session-relative time, so the cutoff applies to the latest processed
sample; in cycle mode, once the first cycle has started, recorded times are
cycle-relative, so a long enough cycle also triggers the cutoff. -/
theorem C3_amended_holds :
    (∀ (period : ℚ) (st : GState), st.waiting_for_first_cycle = true →
      monit_check period st = (st, [])) ∧
    (∀ (period : ℚ) (st : GState), st.waiting_for_first_cycle = false →
      0 < st.xdata.length → st.xdata.getLastD 0 > period →
      monit_check period st =
        ({ st with stopThread := true }, [GEvent.monitTimeEnd])) ∧
    (∀ (period : ℚ) (st : GState), st.xdata.getLastD 0 ≤ period →
      monit_check period st = (st, [])) ∧
    (∀ (cfg : GCfg) (st : GState) (s : Sample), cfg.cycle_mode = false →
      (processSample cfg st s).1.xdata = st.xdata ++ [s.t]) ∧
    (∀ (cfg : GCfg) (st : GState) (s : Sample) (k : ℕ),
      cfg.cycle_mode = true → st.waiting_for_first_cycle = false →
      st.cycle_active = true → i_channel_index cfg = some k →
      k < s.raws.length → s.raws.getD k 0 > i_threshold_high →
      (processSample cfg st s).1.xdata =
        st.xdata ++ [s.t - st.cycle_start_time]) := by
  refine ⟨?_, ?_, ?_, ?_, ?_⟩
  · intro period st h
    simp [monit_check, h]
  · intro period st h1 h2 h3
    rw [monit_check, if_pos ⟨h1, h2, h3⟩]
  · intro period st h
    have hneg : ¬ (st.waiting_for_first_cycle = false ∧
        0 < st.xdata.length ∧ st.xdata.getLastD 0 > period) :=
      fun hc => absurd hc.2.2 (not_lt.mpr h)
    rw [monit_check, if_neg hneg]
  · intro cfg st s h
    simp [processSample, h]
  · intro cfg st s k h1 h2 h3 h4 h5 h6
    have h6g : i_threshold_high < s.raws[k] := by
      rw [List.getD_eq_getElem?_getD, List.getElem?_eq_getElem h5] at h6
      simpa using h6
    simp [processSample, h1, h2, h3, h4, h5, h6g, i_is_high_of]

/-- Claim C3, witness for the amended theorem: the check is inert while
waiting and with small times, fires on a recorded time of 11 against a
duration of 10, and the two recording shapes at concrete inputs. -/
theorem C3_witness :
    (monit_check 10 { initGState ⟨[CT.I], 1, 200, 10, true⟩ with
        xdata := [11] } =
      ({ initGState ⟨[CT.I], 1, 200, 10, true⟩ with xdata := [11] }, [])) ∧
    (monit_check 10 { initGState ⟨[CT.I], 1, 200, 10, false⟩ with
        xdata := [11] } =
      ({ initGState ⟨[CT.I], 1, 200, 10, false⟩ with
          xdata := [11], stopThread := true }, [GEvent.monitTimeEnd])) ∧
    (monit_check 10 { initGState ⟨[CT.I], 1, 200, 10, false⟩ with
        xdata := [9] } =
      ({ initGState ⟨[CT.I], 1, 200, 10, false⟩ with xdata := [9] }, [])) ∧
    ((processSample ⟨[CT.I], 1, 200, 10, false⟩
        (initGState ⟨[CT.I], 1, 200, 10, false⟩) ⟨[0], 4⟩).1.xdata =
      [] ++ [(4 : ℚ)]) ∧
    ((processSample ⟨[CT.I], 1, 200, 10, true⟩
        { initGState ⟨[CT.I], 1, 200, 10, true⟩ with
            waiting_for_first_cycle := false
            cycle_active := true
            cycle_start_time := 1 } ⟨[30000], 5⟩).1.xdata =
      [] ++ [(5 : ℚ) - 1]) :=
  ⟨C3_amended_holds.1 10 _ rfl,
   C3_amended_holds.2.1 10 _ rfl (by decide) (by decide),
   C3_amended_holds.2.2.1 10 _ (by decide),
   C3_amended_holds.2.2.2.1 ⟨[CT.I], 1, 200, 10, false⟩ _ ⟨[0], 4⟩ rfl,
   C3_amended_holds.2.2.2.2 ⟨[CT.I], 1, 200, 10, true⟩ _ ⟨[30000], 5⟩ 0 rfl
     rfl rfl rfl (by decide)
     (by simp only [i_threshold_high_eq]; decide)⟩

/-- Claim C5, counterexample: a rising trigger exactly 2.0 seconds after the
previous cycle end does not start a new cycle, although the claim requires
it to (the code uses a strict comparison at line 1979).  Cycle 1 runs from
t = 1 to t = 4; the HIGH sample at t = 6 satisfies 6 - 4 is at least 2, yet
the final state still shows cycle 1, inactive, and no cycleStarted 2
signal. -/
theorem C5_counterexample :
    ((6 : ℚ) - 4 ≥ 2) ∧
    ((grun ⟨[CT.I], 1, 200, 1000, true⟩
        (initGState ⟨[CT.I], 1, 200, 1000, true⟩)
        [[⟨[30000], 1⟩], [⟨[1000], 4⟩], [⟨[30000], 6⟩]]).1.last_cycle_end_time
      = 4) ∧
    ((grun ⟨[CT.I], 1, 200, 1000, true⟩
        (initGState ⟨[CT.I], 1, 200, 1000, true⟩)
        [[⟨[30000], 1⟩], [⟨[1000], 4⟩], [⟨[30000], 6⟩]]).1.cycle_active
      = false) ∧
    ((grun ⟨[CT.I], 1, 200, 1000, true⟩
        (initGState ⟨[CT.I], 1, 200, 1000, true⟩)
        [[⟨[30000], 1⟩], [⟨[1000], 4⟩], [⟨[30000], 6⟩]]).1.current_cycle
      = 1) ∧
    (GEvent.cycleStarted 2 ∉
      (grun ⟨[CT.I], 1, 200, 1000, true⟩
        (initGState ⟨[CT.I], 1, 200, 1000, true⟩)
        [[⟨[30000], 1⟩], [⟨[1000], 4⟩], [⟨[30000], 6⟩]]).2) := by
  refine ⟨by norm_num, ?_, ?_, ?_, ?_⟩
  all_goals
    norm_num [grun, gloop, gstep, processBatch, processSample, monit_check,
      initGState, i_channel_index, i_is_high_of, convert_voltage_to_units,
      convertFrom, convertOne, update_graph_data_only, update_y_lists,
      append_y_lists, push_window, process_i_channel_transition,
      i_threshold_low_eq, i_threshold_high_eq]
  decide

/-- Claim C5, amended: in cycle mode, with the loop idle between cycles, a
sample whose trigger raw value is above the high threshold starts the next
cycle, incrementing the cycle number, resetting the cycle start time,
clearing the display window and signalling cycle started, if and only if
strictly more than the 2.0 second debounce interval has elapsed since the
last cycle end. -/
theorem C5_amended_holds :
    ∀ (cfg : GCfg) (st : GState) (s : Sample) (k : ℕ),
      cfg.cycle_mode = true → st.waiting_for_first_cycle = false →
      st.cycle_active = false →
      i_channel_index cfg = some k → k < s.raws.length →
      s.raws.getD k 0 > i_threshold_high →
      (((processSample cfg st s).2 =
          [GEvent.cycleStarted (st.current_cycle + 1)] ∧
        (processSample cfg st s).1.cycle_active = true ∧
        (processSample cfg st s).1.current_cycle = st.current_cycle + 1 ∧
        (processSample cfg st s).1.cycle_start_time = s.t ∧
        (processSample cfg st s).1.xdata_plts = []) ↔
        s.t - st.last_cycle_end_time > 2) := by
  intro cfg st s k h1 h2 h3 h4 h5 h6
  have h6g : i_threshold_high < s.raws[k] := by
    rw [List.getD_eq_getElem?_getD, List.getElem?_eq_getElem h5] at h6
    simpa using h6
  by_cases hdb : s.t - st.last_cycle_end_time > 2
  · simp [processSample, h1, h2, h3, h4, h5, h6g, i_is_high_of, hdb]
  · simp [processSample, h1, h2, h3, h4, h5, h6g, i_is_high_of, hdb]

/-- Claim C5, witness for the amended theorem: with the last cycle end at
time 0, a HIGH trigger at time 3 (strictly beyond the debounce) starts
cycle 1 plus one. -/
theorem C5_witness :
    (processSample ⟨[CT.I], 1, 200, 1000, true⟩
        { initGState ⟨[CT.I], 1, 200, 1000, true⟩ with
            waiting_for_first_cycle := false
            current_cycle := 1 } ⟨[30000], 3⟩).2 =
      [GEvent.cycleStarted
        (({ initGState ⟨[CT.I], 1, 200, 1000, true⟩ with
            waiting_for_first_cycle := false
            current_cycle := 1 } : GState).current_cycle + 1)] :=
  ((C5_amended_holds ⟨[CT.I], 1, 200, 1000, true⟩
      { initGState ⟨[CT.I], 1, 200, 1000, true⟩ with
          waiting_for_first_cycle := false
          current_cycle := 1 } ⟨[30000], 3⟩ 0 rfl rfl rfl rfl
      (by decide)
      (by simp only [i_threshold_high_eq]; decide)).mpr
    (lt_of_lt_of_eq (by decide : (2 : ℚ) < 3)
      (sub_zero (3 : ℚ)).symm)).1

theorem processSample_no_graphEnd (cfg : GCfg) (st : GState) (s : Sample) :
    (processSample cfg st s).2.countP isGraphEnd = 0 := by
  rw [processSample]
  split_ifs <;> simp [isGraphEnd]

theorem processBatch_no_graphEnd (cfg : GCfg) :
    ∀ (ss : List Sample) (st : GState),
      (processBatch cfg st ss).2.countP isGraphEnd = 0 := by
  intro ss
  induction ss with
  | nil => intro st; simp [processBatch]
  | cons s ss ih =>
      intro st
      rw [processBatch]
      split_ifs with h
      · simp
      · simp [List.countP_append, processSample_no_graphEnd, ih]

theorem monit_check_no_graphEnd (period : ℚ) (st : GState) :
    (monit_check period st).2.countP isGraphEnd = 0 := by
  rw [monit_check]
  split_ifs <;> simp [isGraphEnd]

theorem gstep_no_graphEnd (cfg : GCfg) (st : GState) (b : List Sample) :
    (gstep cfg st b).2.countP isGraphEnd = 0 := by
  rw [gstep]
  simp [List.countP_append, processBatch_no_graphEnd,
    monit_check_no_graphEnd]

theorem gloop_no_graphEnd (cfg : GCfg) :
    ∀ (bs : List (List Sample)) (st : GState),
      (gloop cfg st bs).2.countP isGraphEnd = 0 := by
  intro bs
  induction bs with
  | nil => intro st; simp [gloop]
  | cons b bs ih =>
      intro st
      rw [gloop]
      split_ifs with h
      · simp
      · simp [List.countP_append, gstep_no_graphEnd, ih]

/-- Claim C9: over any terminating run of the processing loop, the final
export signal carrying the complete session record is emitted exactly once,
and stop_Thread only sets the stop flag, emits nothing, and is idempotent,
so stopping an already-stopped loop cannot produce a second final export. -/
theorem C9_holds :
    (∀ (cfg : GCfg) (st : GState) (batches : List (List Sample)),
      (grun cfg st batches).2.countP isGraphEnd = 1) ∧
    (∀ st : GState, (stop_Thread st).2 = []) ∧
    (∀ st : GState, stop_Thread (stop_Thread st).1 = stop_Thread st) := by
  refine ⟨?_, ?_, ?_⟩
  · intro cfg st batches
    rw [grun]
    simp [List.countP_append, gloop_no_graphEnd, isGraphEnd]
  · intro st
    rfl
  · intro st
    rfl

/-- Claim C10: inside the hysteresis band the cycle-segmentation trigger
classification of GraphThread.run keeps the cycle_active flag of the
segmenter itself, not the held state of the edge detector: while waiting
for the first cycle a band sample starts nothing even when the edge
detector last classified HIGH, and during an active cycle a band sample
keeps recording. -/
theorem C10_holds :
    (∀ (active : Bool) (r : ℚ),
      ¬ (r > i_threshold_high) → ¬ (r < i_threshold_low) →
      i_is_high_of active r = active) ∧
    (∀ (cfg : GCfg) (st : GState) (s : Sample) (k : ℕ),
      cfg.cycle_mode = true → st.waiting_for_first_cycle = true →
      st.cycle_active = false → st.edge.state = some IState.HIGH →
      i_channel_index cfg = some k → k < s.raws.length →
      ¬ (s.raws.getD k 0 > i_threshold_high) →
      ¬ (s.raws.getD k 0 < i_threshold_low) →
      (processSample cfg st s).1.waiting_for_first_cycle = true ∧
      (processSample cfg st s).1.current_cycle = st.current_cycle ∧
      (processSample cfg st s).1.cycle_active = false ∧
      (processSample cfg st s).2 = []) ∧
    (∀ (cfg : GCfg) (st : GState) (s : Sample) (k : ℕ),
      cfg.cycle_mode = true → st.waiting_for_first_cycle = false →
      st.cycle_active = true →
      i_channel_index cfg = some k → k < s.raws.length →
      ¬ (s.raws.getD k 0 > i_threshold_high) →
      ¬ (s.raws.getD k 0 < i_threshold_low) →
      (processSample cfg st s).1.cycle_active = true ∧
      (processSample cfg st s).1.xdata =
        st.xdata ++ [s.t - st.cycle_start_time] ∧
      (processSample cfg st s).2 = []) := by
  refine ⟨?_, ?_, ?_⟩
  · intro active r h1 h2
    rw [i_is_high_of, if_neg h1, if_neg h2]
  · intro cfg st s k h1 h2 h3 h4 h5 h6 h7 h8
    have h7g : ¬ (i_threshold_high < s.raws[k]) := by
      rw [List.getD_eq_getElem?_getD, List.getElem?_eq_getElem h6] at h7
      simpa using h7
    have h8g : ¬ (s.raws[k] < i_threshold_low) := by
      rw [List.getD_eq_getElem?_getD, List.getElem?_eq_getElem h6] at h8
      simpa using h8
    simp [processSample, h1, h2, h3, h5, h6, h7g, h8g, i_is_high_of]
  · intro cfg st s k h1 h2 h3 h4 h5 h6 h7
    have h6g : ¬ (i_threshold_high < s.raws[k]) := by
      rw [List.getD_eq_getElem?_getD, List.getElem?_eq_getElem h5] at h6
      simpa using h6
    have h7g : ¬ (s.raws[k] < i_threshold_low) := by
      rw [List.getD_eq_getElem?_getD, List.getElem?_eq_getElem h5] at h7
      simpa using h7
    simp [processSample, h1, h2, h3, h4, h5, h6g, h7g, i_is_high_of]

/-- Claim C10, witness at concrete inputs: a mid-band raw value of 16384
keeps the segmenter flag; while waiting with the detector held HIGH it
starts nothing; during an active cycle it keeps recording. -/
theorem C10_witness :
    (i_is_high_of true 16384 = true) ∧
    ((processSample ⟨[CT.I], 1, 200, 1000, true⟩
        { initGState ⟨[CT.I], 1, 200, 1000, true⟩ with
            edge := ⟨some IState.HIGH, []⟩ }
        ⟨[16384], 1⟩).1.waiting_for_first_cycle = true) ∧
    ((processSample ⟨[CT.I], 1, 200, 1000, true⟩
        { initGState ⟨[CT.I], 1, 200, 1000, true⟩ with
            waiting_for_first_cycle := false
            cycle_active := true
            cycle_start_time := 1 }
        ⟨[16384], 5⟩).1.cycle_active = true) :=
  ⟨C10_holds.1 true 16384
     (by simp only [i_threshold_high_eq]; decide)
     (by simp only [i_threshold_low_eq]; decide),
   (C10_holds.2.1 ⟨[CT.I], 1, 200, 1000, true⟩
     { initGState ⟨[CT.I], 1, 200, 1000, true⟩ with
         edge := ⟨some IState.HIGH, []⟩ }
     ⟨[16384], 1⟩ 0 rfl rfl rfl rfl rfl (by decide)
     (by simp only [i_threshold_high_eq]; decide)
     (by simp only [i_threshold_low_eq]; decide)).1,
   (C10_holds.2.2 ⟨[CT.I], 1, 200, 1000, true⟩
     { initGState ⟨[CT.I], 1, 200, 1000, true⟩ with
         waiting_for_first_cycle := false
         cycle_active := true
         cycle_start_time := 1 }
     ⟨[16384], 5⟩ 0 rfl rfl rfl rfl (by decide)
     (by simp only [i_threshold_high_eq]; decide)
     (by simp only [i_threshold_low_eq]; decide)).1⟩

end Monitoring
